import Mathlib

/-!
# Verification of the Admin_panel task transformer, API client and forms

Shallow embedding of the TypeScript admin dashboard:

* `transformTaskForAPI` / `normalizeFetchedTask` — the task payload
  transformer of the exercise form (`ExerciseForm`);
* `handleResponse` / `removeToken` — the fetch wrapper in
  `src/utils/apiService.ts`;
* `login` — the auth hook in `src/hooks/useAuth.tsx`;
* `EmailConfigForm.handleSubmit` — client-side JSON validation;
* the Inquiries page loader.

JavaScript semantics (truthiness, `||` / `??` chains, `String(...)`
coercion, `Array.prototype.join`, `String.prototype.split`, `trim`) is
embedded explicitly by the `js*` helper functions below.  `undefined` /
missing object fields are `Option.none`.
-/

namespace AdminPanel

/-- JS `a || b` on strings: `""` is falsy. -/
def jsOr (s d : String) : String := if s = "" then d else s

/-- JS `a || b` where `a` is a possibly-undefined string. -/
def jsOrOpt (o : Option String) (d : String) : String :=
  match o with
  | some s => if s = "" then d else s
  | none => d

/-- JS truthiness of a possibly-undefined string. -/
def jsTruthyStr (o : Option String) : Bool :=
  match o with
  | some s => s ≠ ""
  | none => false

/-- JS truthiness of a possibly-undefined number (`0` is falsy). -/
def jsTruthyNat (o : Option Nat) : Bool :=
  match o with
  | some n => n ≠ 0
  | none => false

/-- JS `a || b` on a possibly-undefined number with fallback number. -/
def jsOrNat (o : Option Nat) (d : Nat) : Nat :=
  match o with
  | some n => if n = 0 then d else n
  | none => d

/-- JS `a || b` where both sides are possibly-undefined numbers. -/
def jsOrNatOpt (a b : Option Nat) : Option Nat :=
  match a with
  | some n => if n = 0 then b else some n
  | none => b

/-- JS `a || undefined` on a possibly-undefined number: `0` becomes `undefined`. -/
def jsOrUndef (o : Option Nat) : Option Nat :=
  if jsTruthyNat o then o else none

/-- JS nullish coalescing `a ?? b`. -/
def jsNullish {α : Type} (a b : Option α) : Option α :=
  match a with
  | some x => some x
  | none => b

/-- JS `String.prototype.toLowerCase` (ASCII, as used on the task type tags). -/
def jsToLower (s : String) : String := String.mk (s.data.map Char.toLower)

/-- JS `String.prototype.trim` on a character list: strip whitespace at both ends. -/
def trimChars (l : List Char) : List Char :=
  ((l.dropWhile Char.isWhitespace).reverse.dropWhile Char.isWhitespace).reverse

/-- JS `String.prototype.trim`. -/
def jsTrim (s : String) : String := String.mk (trimChars s.data)

/-- JS `String.prototype.split(',')` on a character list.
`"".split(',')` is `[""]`, and every comma separates. -/
def splitCommaChars : List Char → List (List Char)
  | [] => [[]]
  | c :: cs =>
    match splitCommaChars cs with
    | [] => [[]]
    | p :: ps => if c = ',' then [] :: p :: ps else (c :: p) :: ps

/-- JS `String.prototype.split(',')`. -/
def jsSplitComma (s : String) : List String :=
  (splitCommaChars s.data).map String.mk

/-- `List.intercalate` for character lists (JS `Array.prototype.join`). -/
def joinChars (sep : List Char) : List (List Char) → List Char
  | [] => []
  | [p] => p
  | p :: q :: ps => p ++ sep ++ joinChars sep (q :: ps)

/-- JS `array.join(', ')` on strings. -/
def joinCommaSpace (l : List String) : String :=
  String.mk (joinChars [',', ' '] (l.map String.data))

/-- `String(x).split(',').map(ans => ans.trim()).filter(Boolean)` — the
comma-separated answer-string parser used by both directions of the task
transformer. -/
def parseAnswers (s : String) : List String :=
  ((jsSplitComma s).map jsTrim).filter (fun x => x ≠ "")

/-- JS `array.map((x, i) => f(i, x))` keeping the index. -/
def mapIdxGo {α β : Type} (f : Nat → α → β) : Nat → List α → List β
  | _, [] => []
  | i, a :: as => f i a :: mapIdxGo f (i + 1) as

/-- JS `array.map((x, i) => f(i, x))`. -/
def mapIdx {α β : Type} (f : Nat → α → β) (l : List α) : List β :=
  mapIdxGo f 0 l

/-! ## The UI `Task` data model (src/types.ts, as consumed by the transformer) -/

/-- An element of `group1` / `group2`: the transformer accepts both plain
strings and `{ value, id }` objects (`typeof g === 'object' ? g.value : g`). -/
inductive GItem : Type where
  | gstr (s : String)
  | gobj (value : String) (id : Option String)
deriving DecidableEq, Repr

/-- `typeof g === 'object' ? g.value : g`. -/
def GItem.val : GItem → String
  | .gstr s => s
  | .gobj v _ => v

/-- An MCQ option: either an object `{ value, isCorrect }` or a primitive
(`typeof o === 'object' ? o.value : String(o ?? '')`). -/
inductive OptItem : Type where
  | oobj (id : Option String) (value : String) (isCorrect : Option Bool)
  | oprim (s : String)
deriving DecidableEq, Repr

/-- A question object: the transformer reads `questionText`/`question` for
MCQ and `value`/`questionText` for QA/Writing/Speaking. -/
structure Question : Type where
  id : Option String := none
  questionText : Option String := none
  question : Option String := none
  value : Option String := none
  allowMultipleSelections : Option Bool := none
  options : Option (List OptItem) := none
deriving DecidableEq, Repr

/-- A blank of a Filling Blanks task (src/types.ts `FillingBlanksTask.blanks`). -/
structure Blank : Type where
  id : Option String := none
  questionText : Option String := none
  textBefore : Option String := none
  correctAnswer : Option String := none
  correctAnswers : Option (List String) := none
  position : Option Nat := none
deriving DecidableEq, Repr

/-- The UI task object (the union `Task` of src/types.ts, flattened: absent
variant fields are `none`; `taskType` is a string because the transformer
also accepts unknown/legacy tags). -/
structure Task : Type where
  id : String := ""
  apiId : Option Nat := none
  taskType : String
  title : String := ""
  description : String := ""
  allowedTime : Nat := 0
  maxWordsPerBlank : Option Nat := none
  minimumWordCount : Option Nat := none
  maxWords : Option Nat := none
  maxWordsPerAnswer : Option Nat := none
  allowMultipleSelections : Option Bool := none
  questions : Option (List Question) := none
  blanks : Option (List Blank) := none
  group1 : Option (List GItem) := none
  group2 : Option (List GItem) := none
  answers : Option (List String) := none
deriving DecidableEq, Repr

/-! ## The flat API payload produced by `transformTaskForAPI` -/

/-- One element of `payload.mcqs[].options`. -/
structure APIMcqOption : Type where
  option_text : String
  is_true : Bool
deriving DecidableEq, Repr

/-- One element of `payload.mcqs`. -/
structure APIMcq : Type where
  question_text : String
  allow_multiple : Bool
  options : List APIMcqOption
deriving DecidableEq, Repr

/-- One element of `payload.filling_blanks`. -/
structure APIBlank : Type where
  question_text : String
  correct_answer : String
  position : Nat
deriving DecidableEq, Repr

/-- The plain record sent to the `/tasks` endpoint.  `Option` fields model
JS fields that are only conditionally assigned (absent = `none`). -/
structure APIPayload : Type where
  exercise_id : Nat
  type : String
  title : String
  description : String
  allowed_time : Nat
  task_id : Option Nat := none
  mcqs : Option (List APIMcq) := none
  max_words : Option Nat := none
  min_words : Option Nat := none
  filling_blanks : Option (List APIBlank) := none
  group1 : Option (List String) := none
  group2 : Option (List String) := none
  answers : Option (List String) := none
  question_prompts : Option (List String) := none
deriving DecidableEq, Repr

/-- `API_TASK_TYPE_MAP` (also the local `taskTypeMap` inside
`transformTaskForAPI` — the two literals in the source are identical). -/
def API_TASK_TYPE_MAP : String → Option String := fun s =>
  if s = "MCQ" then some "mcq"
  else if s = "Filling Blanks" then some "filling_blanks"
  else if s = "Matching" then some "matching"
  else if s = "QA" then some "qa"
  else if s = "Writing" then some "writing"
  else if s = "Speaking" then some "speaking"
  else none

/-- `taskTypeMap[task.taskType] || task.taskType?.toLowerCase()` (all map
values are truthy, so `||` is an `Option.getD`). -/
def uiToApiType (tag : String) : String :=
  (API_TASK_TYPE_MAP tag).getD (jsToLower tag)

/-- The `answersArray` computed per blank inside `transformTaskForAPI`:
`b.correctAnswers` when it is a non-empty array, else the parse of the
comma-separated `b.correctAnswer`, else `[]`. -/
def answersArrayOf (b : Blank) : List String :=
  match b.correctAnswers with
  | some (a :: as) => a :: as
  | _ =>
    if jsTruthyStr b.correctAnswer then parseAnswers (b.correctAnswer.getD "")
    else []

/-- `q.value || q.questionText || ''` — the QA/Writing/Speaking prompt. -/
def promptOf (q : Question) : String :=
  jsOrOpt q.value (jsOrOpt q.questionText "")

/-- The MCQ payload entry built from one UI question. -/
def mcqEntryOf (taskAms : Option Bool) (q : Question) : APIMcq :=
  { question_text := jsOrOpt q.questionText (jsOrOpt q.question "")
    allow_multiple := (jsNullish q.allowMultipleSelections taskAms).getD false
    options := (q.options.getD []).map fun o =>
      match o with
      | .oobj _ v c => { option_text := v, is_true := c.getD false }
      | .oprim s => { option_text := s, is_true := false } }

/-- The Filling-Blanks payload entry built from one UI blank at its index. -/
def blankEntryOf (index : Nat) (b : Blank) : APIBlank :=
  { question_text := jsOrOpt b.questionText (jsOrOpt b.textBefore "")
    correct_answer := joinCommaSpace (answersArrayOf b)
    position := jsOrNat b.position (index + 1) }

/-- `transformTaskForAPI(task, exerciseId)` from the exercise form.

The source mutates a `base` record through sequential
`if (resolvedType === '...')` blocks; at most one of them fires (a string
equals at most one of the six tags), so they are embedded as an
if-then-else chain, and fields that a branch assigns only conditionally
(`if (x) base.f = x`) become conditional field values (absent = `none`).
`base.task_id` is only set for a truthy `task.apiId`. -/
def transformTaskForAPI (task : Task) (exerciseId : Nat) : APIPayload :=
  let resolvedType := uiToApiType task.taskType
  let base : APIPayload :=
    { exercise_id := exerciseId
      type := resolvedType
      title := task.title
      description := jsOr task.description ""
      allowed_time := task.allowedTime
      task_id := if jsTruthyNat task.apiId then task.apiId else none }
  if resolvedType = "mcq" then
    { base with mcqs := some ((task.questions.getD []).map (mcqEntryOf task.allowMultipleSelections)) }
  else if resolvedType = "filling_blanks" then
    { base with
      max_words := if jsTruthyNat task.maxWordsPerBlank then task.maxWordsPerBlank else none
      filling_blanks := some (mapIdx blankEntryOf (task.blanks.getD [])) }
  else if resolvedType = "matching" then
    { base with
      group1 := some ((task.group1.getD []).map GItem.val)
      group2 := some ((task.group2.getD []).map GItem.val)
      answers := if task.answers.isSome then task.answers else none }
  else if resolvedType = "qa" then
    { base with
      question_prompts := some ((task.questions.getD []).map promptOf)
      max_words := if jsTruthyNat task.maxWordsPerAnswer then task.maxWordsPerAnswer else none
      min_words := if jsTruthyNat task.minimumWordCount then task.minimumWordCount else none
      answers := if task.answers.isSome then task.answers else none }
  else if resolvedType = "writing" then
    { base with
      min_words := if jsTruthyNat task.minimumWordCount then task.minimumWordCount else none
      max_words := if jsTruthyNat task.maxWords then task.maxWords else none
      question_prompts :=
        if task.questions.isSome then some ((task.questions.getD []).map promptOf) else none }
  else if resolvedType = "speaking" then
    { base with
      question_prompts :=
        if task.questions.isSome then some ((task.questions.getD []).map promptOf) else none }
  else base

/-! ## Fetched task shape and `normalizeFetchedTask` -/

/-- A fetched MCQ option as read by `normalizeFetchedTask`. -/
structure FetchedOption : Type where
  id : Option Nat := none
  option_text : Option String := none
  value : Option String := none
  is_true : Option Bool := none
deriving DecidableEq, Repr

/-- A fetched MCQ entry as read by `normalizeFetchedTask`. -/
structure FetchedMcq : Type where
  id : Option Nat := none
  question_text : Option String := none
  question : Option String := none
  allow_multiple : Option Bool := none
  options : Option (List FetchedOption) := none
deriving DecidableEq, Repr

/-- A fetched blank as read by `normalizeFetchedTask`. -/
structure FetchedBlank : Type where
  id : Option Nat := none
  question_text : Option String := none
  correct_answer : Option String := none
  position : Option Nat := none
deriving DecidableEq, Repr

/-- The fetched task object `t` handed to `normalizeFetchedTask` (all fields
possibly absent — the function probes them defensively). -/
structure FetchedTask : Type where
  task_id : Option Nat := none
  id : Option Nat := none
  type : Option String := none
  title : String := ""
  description : Option String := none
  allowed_time : Option Nat := none
  min_words : Option Nat := none
  max_words : Option Nat := none
  max_words_per_blank : Option Nat := none
  allow_multiple : Option Bool := none
  group1 : Option (List String) := none
  group2 : Option (List String) := none
  answers : Option (List String) := none
  mcqs : Option (List FetchedMcq) := none
  filling_blanks : Option (List FetchedBlank) := none
  question_prompts : Option (List String) := none
deriving DecidableEq, Repr

/-- `API_TO_UI_TASK_TYPE` — the reverse tag map. -/
def API_TO_UI_TASK_TYPE : String → Option String := fun s =>
  if s = "mcq" then some "MCQ"
  else if s = "filling_blanks" then some "Filling Blanks"
  else if s = "matching" then some "Matching"
  else if s = "qa" then some "QA"
  else if s = "writing" then some "Writing"
  else if s = "speaking" then some "Speaking"
  else none

/-- `String(x)` on a possibly-undefined number (used for the local id:
`String(t.task_id || t.id)` gives `"undefined"` when both are absent). -/
def jsStringOfNat (o : Option Nat) : String :=
  match o with
  | some n => toString n
  | none => "undefined"

/-- The resolved UI tag inside `normalizeFetchedTask`:
`API_TO_UI_TASK_TYPE[(t.type || '').toLowerCase()] || t.type || 'Matching'`
(all map values are truthy, so the first `||` is a `match`). -/
def resolveFetchedType (ty : Option String) : String :=
  match API_TO_UI_TASK_TYPE (jsToLower (jsOrOpt ty "")) with
  | some u => u
  | none => jsOrOpt ty "Matching"

/-- `normalizeFetchedTask(t)` from the exercise form.  `crypto.randomUUID()`
is modelled by the parameter `uuid`, applied to the position of the call
(`[i]` for the i-th sub-item, `[i, j]` for the j-th option of question i);
the generated ids carry no semantic content. -/
def normalizeFetchedTask (uuid : List Nat → String) (t : FetchedTask) : Task :=
  let resolvedType := resolveFetchedType t.type
  let baseTask : Task :=
    { id := jsStringOfNat (jsOrNatOpt t.task_id t.id)
      apiId := jsOrNatOpt t.task_id t.id
      taskType := resolvedType
      title := t.title
      description := jsOrOpt t.description ""
      allowedTime := jsOrNat t.allowed_time 0
      minimumWordCount := jsOrUndef t.min_words
      maxWords := jsOrUndef t.max_words
      maxWordsPerBlank := jsOrUndef (jsOrNatOpt t.max_words_per_blank t.max_words)
      allowMultipleSelections := some (t.allow_multiple.getD false)
      group1 := some ((t.group1.getD []).map GItem.gstr)
      group2 := some ((t.group2.getD []).map GItem.gstr)
      answers := some (t.answers.getD []) }
  if resolvedType = "MCQ" then
    { baseTask with
      questions := some (mapIdx (fun i mcq =>
        { id := some (if jsTruthyNat mcq.id then jsStringOfNat mcq.id else uuid [i])
          questionText := some (jsOrOpt mcq.question_text (jsOrOpt mcq.question ""))
          allowMultipleSelections := some (mcq.allow_multiple.getD false)
          options := some (mapIdx (fun j opt =>
            OptItem.oobj
              (some (if jsTruthyNat opt.id then jsStringOfNat opt.id else uuid [i, j]))
              (jsOrOpt opt.option_text (jsOrOpt opt.value ""))
              (some (opt.is_true.getD false))) (mcq.options.getD [])) }) (t.mcqs.getD [])) }
  else if resolvedType = "Filling Blanks" then
    { baseTask with
      blanks := some (mapIdx (fun index blank =>
        let answerList :=
          if jsTruthyStr blank.correct_answer then parseAnswers (blank.correct_answer.getD "")
          else []
        { id := some (if jsTruthyNat blank.id then jsStringOfNat blank.id else uuid [index])
          questionText := some (jsOrOpt blank.question_text "")
          correctAnswers := some answerList
          correctAnswer := some (joinCommaSpace answerList)
          position := some (jsOrNat blank.position (index + 1)) }) (t.filling_blanks.getD []))
      maxWordsPerBlank := jsOrUndef (jsOrNatOpt t.max_words t.max_words_per_blank) }
  else if resolvedType = "QA" ∨ resolvedType = "Writing" ∨ resolvedType = "Speaking" then
    { baseTask with
      questions := some (mapIdx (fun i prompt =>
        ({ id := some (uuid [i]), value := some prompt } : Question)) (t.question_prompts.getD []))
      maxWordsPerAnswer := if jsTruthyNat t.max_words then t.max_words else none
      minimumWordCount := if jsTruthyNat t.min_words then t.min_words else baseTask.minimumWordCount }
  else baseTask

/-- The API echoing a stored payload: the fetched object holding exactly the
fields of the payload that was sent (no server-side additions). -/
def echoPayload (p : APIPayload) : FetchedTask :=
  { task_id := p.task_id
    id := none
    type := some p.type
    title := p.title
    description := some p.description
    allowed_time := some p.allowed_time
    min_words := p.min_words
    max_words := p.max_words
    max_words_per_blank := none
    allow_multiple := none
    group1 := p.group1
    group2 := p.group2
    answers := p.answers
    mcqs := (p.mcqs.map fun l => l.map fun m =>
      { id := none
        question_text := some m.question_text
        question := none
        allow_multiple := some m.allow_multiple
        options := some (m.options.map fun o =>
          { id := none
            option_text := some o.option_text
            value := none
            is_true := some o.is_true }) })
    filling_blanks := (p.filling_blanks.map fun l => l.map fun b =>
      { id := none
        question_text := some b.question_text
        correct_answer := some b.correct_answer
        position := some b.position })
    question_prompts := p.question_prompts }

/-! ## Semantic content of a task

The projection that the round-trip property compares: titles, timing,
and per-variant question/answer structure, read the way the transformer
itself resolves legacy field spellings (`value || questionText`,
`questionText || textBefore`, truthy word counts, parsed blank answers).
Local/client ids are excluded — they are regenerated on fetch. -/

/-- Semantic content of one MCQ option. -/
structure OptSem : Type where
  text : String
  correct : Bool
deriving DecidableEq, Repr

/-- Semantic content of an `OptItem`. -/
def optSem : OptItem → OptSem
  | .oobj _ v c => { text := v, correct := c.getD false }
  | .oprim s => { text := s, correct := false }

/-- Semantic content of one MCQ question (`taskAms` is the task-level
`allowMultipleSelections` default used by the `??` fallback). -/
structure McqSem : Type where
  text : String
  allowMultiple : Bool
  options : List OptSem
deriving DecidableEq, Repr

/-- Semantic content of an MCQ `Question`. -/
def mcqSem (taskAms : Option Bool) (q : Question) : McqSem :=
  { text := jsOrOpt q.questionText (jsOrOpt q.question "")
    allowMultiple := (jsNullish q.allowMultipleSelections taskAms).getD false
    options := (q.options.getD []).map optSem }

/-- Semantic content of one blank (at its index). -/
structure BlankSem : Type where
  text : String
  answers : List String
  position : Nat
deriving DecidableEq, Repr

/-- Semantic content of a `Blank` sitting at index `i`. -/
def blankSem (i : Nat) (b : Blank) : BlankSem :=
  { text := jsOrOpt b.questionText (jsOrOpt b.textBefore "")
    answers := answersArrayOf b
    position := jsOrNat b.position (i + 1) }

/-- The variant-specific semantic content of a task. -/
inductive VariantSem : Type where
  | matching (g1 g2 answers : List String)
  | fblanks (maxWords : Option Nat) (blanks : List BlankSem)
  | mcq (questions : List McqSem)
  | qa (maxWordsPerAnswer minWords : Option Nat) (prompts answers : List String)
  | writing (minWords maxWords : Option Nat) (prompts : List String)
  | speaking (prompts : List String)
  | other
deriving DecidableEq, Repr

/-- Full semantic content of a task. -/
structure TaskSem : Type where
  taskType : String
  title : String
  description : String
  allowedTime : Nat
  variant : VariantSem
deriving DecidableEq, Repr

/-- The semantic projection of a UI task. -/
def taskSem (t : Task) : TaskSem :=
  { taskType := t.taskType
    title := t.title
    description := t.description
    allowedTime := t.allowedTime
    variant :=
      if t.taskType = "Matching" then
        .matching ((t.group1.getD []).map GItem.val) ((t.group2.getD []).map GItem.val)
          (t.answers.getD [])
      else if t.taskType = "Filling Blanks" then
        .fblanks (jsOrUndef t.maxWordsPerBlank) (mapIdx blankSem (t.blanks.getD []))
      else if t.taskType = "MCQ" then
        .mcq ((t.questions.getD []).map (mcqSem t.allowMultipleSelections))
      else if t.taskType = "QA" then
        .qa (jsOrUndef t.maxWordsPerAnswer) (jsOrUndef t.minimumWordCount)
          ((t.questions.getD []).map promptOf) (t.answers.getD [])
      else if t.taskType = "Writing" then
        .writing (jsOrUndef t.minimumWordCount) (jsOrUndef t.maxWords)
          ((t.questions.getD []).map promptOf)
      else if t.taskType = "Speaking" then
        .speaking ((t.questions.getD []).map promptOf)
      else .other }

/-- The six UI task type tags of `src/types.ts` (`TaskType`). -/
def uiTaskTypes : List String :=
  ["Matching", "Filling Blanks", "MCQ", "QA", "Writing", "Speaking"]

/-- An answer string that survives the comma-join / split-trim cycle
verbatim: already trimmed, non-empty and comma-free. -/
def isCleanAnswer (s : String) : Bool :=
  jsTrim s = s && s ≠ "" && s.data.all (fun c => c ≠ ',')

/-! ## Split / join round-trip lemmas -/

lemma trimChars_nil : trimChars [] = [] := rfl

lemma trimChars_space (l : List Char) : trimChars (' ' :: l) = trimChars l := by
  have hw : Char.isWhitespace ' ' = true := by decide
  simp [trimChars, List.dropWhile_cons, hw]

lemma splitCommaChars_ne_nil (l : List Char) : splitCommaChars l ≠ [] := by
  induction l with
  | nil => simp [splitCommaChars]
  | cons c cs ih =>
    rcases hs : splitCommaChars cs with _ | ⟨p, ps⟩
    · exact absurd hs ih
    · simp only [splitCommaChars, hs]
      split <;> simp

lemma splitCommaChars_comma (cs : List Char) :
    splitCommaChars (',' :: cs) = [] :: splitCommaChars cs := by
  rcases hs : splitCommaChars cs with _ | ⟨p, ps⟩
  · exact absurd hs (splitCommaChars_ne_nil cs)
  · simp only [splitCommaChars, hs]
    simp

lemma splitCommaChars_append (p cs : List Char) (h : ',' ∉ p) :
    splitCommaChars (p ++ cs) =
      (p ++ (splitCommaChars cs).headI) :: (splitCommaChars cs).tail := by
  induction p with
  | nil =>
    obtain ⟨q, qs, hq⟩ := List.exists_cons_of_ne_nil (splitCommaChars_ne_nil cs)
    simp [hq]
  | cons c p ih =>
    have hc : c ≠ ',' := by
      intro hc; exact h (hc ▸ List.mem_cons_self c p)
    have hp : ',' ∉ p := fun hm => h (List.mem_cons_of_mem c hm)
    rw [List.cons_append]
    simp only [splitCommaChars, ih hp]
    simp [hc]

lemma map_trim_splitComma_space (l : List Char) :
    (splitCommaChars (' ' :: l)).map trimChars = (splitCommaChars l).map trimChars := by
  obtain ⟨q, qs, hq⟩ := List.exists_cons_of_ne_nil (splitCommaChars_ne_nil l)
  have hsp : splitCommaChars (' ' :: l) = (' ' :: q) :: qs := by
    simp only [splitCommaChars, hq]
    simp
  simp [hsp, hq, trimChars_space]

/-- Clean pieces survive the `join(', ')` / `split(',')`-`trim`-`filter` cycle. -/
lemma clean_join_split (ps : List (List Char))
    (h : ∀ p ∈ ps, trimChars p = p ∧ p ≠ [] ∧ ',' ∉ p) :
    ((splitCommaChars (joinChars [',', ' '] ps)).map trimChars).filter (fun x => x ≠ []) = ps := by
  induction ps with
  | nil => simp [joinChars, splitCommaChars, trimChars_nil]
  | cons p ps ih =>
    obtain ⟨htrim, hne, hnc⟩ := h p (List.mem_cons_self p ps)
    cases ps with
    | nil =>
      have hsp : splitCommaChars (p ++ []) = (p ++ [[]].headI) :: [[]].tail :=
        splitCommaChars_append p [] hnc
      simp only [List.append_nil] at hsp
      simp [joinChars, hsp, htrim, hne]
    | cons q qs =>
      have hrest : ∀ r ∈ q :: qs, trimChars r = r ∧ r ≠ [] ∧ ',' ∉ r :=
        fun r hr => h r (List.mem_cons_of_mem p hr)
      have hj : joinChars [',', ' '] (p :: q :: qs) =
          p ++ (',' :: ' ' :: joinChars [',', ' '] (q :: qs)) := by
        simp [joinChars]
      rw [hj, splitCommaChars_append p _ hnc, splitCommaChars_comma]
      simp only [List.headI, List.tail_cons, List.append_nil, List.map_cons, List.filter_cons]
      rw [show ((splitCommaChars (' ' :: joinChars [',', ' '] (q :: qs))).map trimChars) =
          ((splitCommaChars (joinChars [',', ' '] (q :: qs))).map trimChars) from
        map_trim_splitComma_space _]
      simp only [htrim]
      have hcond : (!decide (p = [])) = true := by simp [hne]
      have hih := ih hrest
      simp only [decide_not] at hih
      simp [hcond, hih]

lemma string_mk_eq_empty (l : List Char) : (String.mk l = "") ↔ l = [] := by
  constructor
  · intro h
    have := congrArg String.data h
    simpa using this
  · intro h; subst h; rfl

/-- Clean answers survive `join(', ')` then `split(',')`-`trim`-`filter`. -/
lemma parseAnswers_joinCommaSpace (l : List String) (h : ∀ s ∈ l, isCleanAnswer s = true) :
    parseAnswers (joinCommaSpace l) = l := by
  have hchars : ∀ p ∈ l.map String.data, trimChars p = p ∧ p ≠ [] ∧ ',' ∉ p := by
    intro p hp
    obtain ⟨s, hs, rfl⟩ := List.mem_map.1 hp
    have hc := h s hs
    simp only [isCleanAnswer, Bool.and_eq_true, decide_eq_true_eq] at hc
    obtain ⟨⟨htrim, hne⟩, hall⟩ := hc
    refine ⟨?_, ?_, ?_⟩
    · have := congrArg String.data htrim
      simpa [jsTrim] using this
    · intro hnil
      apply hne
      have : String.mk s.data = String.mk [] := by rw [hnil]
      simpa using this
    · intro hmem
      have := List.all_eq_true.1 hall ',' hmem
      simp at this
  have key := clean_join_split (l.map String.data) hchars
  unfold parseAnswers joinCommaSpace jsSplitComma jsTrim
  rw [List.map_map]
  have hcomp : ((fun s : String => String.mk (trimChars s.data)) ∘ String.mk)
      = (String.mk ∘ trimChars) := funext fun p => rfl
  rw [show (String.mk (joinChars [',', ' '] (l.map String.data))).data
      = joinChars [',', ' '] (l.map String.data) from rfl]
  rw [hcomp, ← List.map_map, List.filter_map]
  have hpred : ∀ x ∈ (splitCommaChars (joinChars [',', ' '] (l.map String.data))).map trimChars,
      ((fun s : String => decide (s ≠ "")) ∘ String.mk) x = decide (x ≠ []) := by
    intro x hx
    simp [Function.comp, string_mk_eq_empty]
  rw [List.filter_congr hpred, key, List.map_map]
  have hid : (String.mk ∘ String.data) = id := funext fun s => rfl
  rw [hid, List.map_id]

/-! ## Evaluation and JS-helper lemmas -/

lemma uiToApi_Matching : uiToApiType "Matching" = "matching" := rfl

lemma uiToApi_FB : uiToApiType "Filling Blanks" = "filling_blanks" := rfl

lemma uiToApi_MCQ : uiToApiType "MCQ" = "mcq" := rfl

lemma uiToApi_QA : uiToApiType "QA" = "qa" := rfl

lemma uiToApi_Writing : uiToApiType "Writing" = "writing" := rfl

lemma uiToApi_Speaking : uiToApiType "Speaking" = "speaking" := rfl

lemma resolveF_matching : resolveFetchedType (some "matching") = "Matching" := rfl

lemma resolveF_fb : resolveFetchedType (some "filling_blanks") = "Filling Blanks" := rfl

lemma resolveF_mcq : resolveFetchedType (some "mcq") = "MCQ" := rfl

lemma resolveF_qa : resolveFetchedType (some "qa") = "QA" := rfl

lemma resolveF_writing : resolveFetchedType (some "writing") = "Writing" := rfl

lemma resolveF_speaking : resolveFetchedType (some "speaking") = "Speaking" := rfl

lemma GItem_val_gstr (s : String) : (GItem.gstr s).val = s := rfl

lemma jsOr_empty (s : String) : jsOr s "" = s := by
  unfold jsOr; split <;> simp_all

lemma ite_empty_self (s : String) : (if s = "" then "" else s) = s := by
  split <;> simp_all

lemma ite_zero_self (n : Nat) : (if n = 0 then 0 else n) = n := by
  split <;> simp_all

lemma ite_isSome_self {α : Type} (o : Option α) : (if o.isSome = true then o else none) = o := by
  cases o <;> simp

lemma ite_jsTruthyNat (o : Option Nat) :
    (if jsTruthyNat o = true then o else none) = jsOrUndef o := rfl

lemma ite_jsTruthyNat_or (o : Option Nat) :
    (if jsTruthyNat o = true then o else jsOrUndef o) = jsOrUndef o := by
  cases o with
  | none => rfl
  | some n => by_cases h : n = 0 <;> simp [jsTruthyNat, jsOrUndef, h]

lemma jsOrUndef_none : jsOrUndef none = none := rfl

lemma jsOrUndef_idem (o : Option Nat) : jsOrUndef (jsOrUndef o) = jsOrUndef o := by
  cases o with
  | none => rfl
  | some n => by_cases h : n = 0 <;> simp [jsTruthyNat, jsOrUndef, h]

lemma jsOrNatOpt_none_right (o : Option Nat) : jsOrNatOpt o none = jsOrUndef o := by
  cases o with
  | none => rfl
  | some n => by_cases h : n = 0 <;> simp [jsTruthyNat, jsOrUndef, jsOrNatOpt, h]

lemma jsOrNatOpt_none_left (o : Option Nat) : jsOrNatOpt none o = o := rfl

lemma ite_isSome_map_getD {α β : Type} (o : Option (List α)) (f : α → β) :
    (if o.isSome = true then some ((o.getD []).map f) else none).getD [] = (o.getD []).map f := by
  cases o <;> simp

lemma parseAnswers_empty : parseAnswers "" = [] := rfl

lemma joinCommaSpace_nil : joinCommaSpace [] = "" := rfl

lemma jsOrNat_some_succ (o : Option Nat) (d : Nat) :
    jsOrNat (some (jsOrNat o (d + 1))) (d + 1) = jsOrNat o (d + 1) := by
  cases o with
  | none => simp [jsOrNat]
  | some n => by_cases h : n = 0 <;> simp [jsOrNat, h]

lemma answersArrayOf_join_mk (idv qt tb : Option String) (AL : List String) (pos : Option Nat) :
    answersArrayOf ⟨idv, qt, tb, some (joinCommaSpace AL), some AL, pos⟩ = AL := by
  cases AL with
  | nil => simp [answersArrayOf, jsTruthyStr, joinCommaSpace_nil]
  | cons x xs => simp [answersArrayOf]

/-! ## `mapIdx` composition lemmas -/

lemma mapIdxGo_map_right {α β γ : Type} (f : Nat → β → γ) (g : α → β) (n : Nat) (l : List α) :
    mapIdxGo f n (l.map g) = mapIdxGo (fun i a => f i (g a)) n l := by
  induction l generalizing n with
  | nil => rfl
  | cons a as ih => simp [mapIdxGo, ih]

lemma map_mapIdxGo {α β γ : Type} (g : β → γ) (f : Nat → α → β) (n : Nat) (l : List α) :
    (mapIdxGo f n l).map g = mapIdxGo (fun i a => g (f i a)) n l := by
  induction l generalizing n with
  | nil => rfl
  | cons a as ih => simp [mapIdxGo, ih]

lemma mapIdxGo_mapIdxGo {α β γ : Type} (g : Nat → β → γ) (f : Nat → α → β) (n : Nat) (l : List α) :
    mapIdxGo g n (mapIdxGo f n l) = mapIdxGo (fun i a => g i (f i a)) n l := by
  induction l generalizing n with
  | nil => rfl
  | cons a as ih => simp [mapIdxGo, ih]

lemma mapIdxGo_congr {α β : Type} (f g : Nat → α → β) (n : Nat) (l : List α)
    (h : ∀ a ∈ l, ∀ i, f i a = g i a) :
    mapIdxGo f n l = mapIdxGo g n l := by
  induction l generalizing n with
  | nil => rfl
  | cons a as ih =>
    simp only [mapIdxGo, h a (List.mem_cons_self a as)]
    rw [ih _ (fun a ha i => h a (List.mem_cons_of_mem _ ha) i)]

lemma mapIdxGo_eq_map {α β : Type} (h : α → β) (n : Nat) (l : List α) :
    mapIdxGo (fun _ a => h a) n l = l.map h := by
  induction l generalizing n with
  | nil => rfl
  | cons a as ih => simp [mapIdxGo, ih]

/-! ## Per-variant round-trip lemmas -/

lemma roundtrip_matching (t : Task) (eid : Nat) (uuid : List Nat → String)
    (h : t.taskType = "Matching") :
    taskSem (normalizeFetchedTask uuid (echoPayload (transformTaskForAPI t eid))) = taskSem t := by
  obtain ⟨i, a, tt, ti, d, at_, m1, m2, m3, m4, ams, qs, bl, g1, g2, ans⟩ := t
  simp only at h
  subst h
  simp [transformTaskForAPI, uiToApi_Matching, echoPayload, normalizeFetchedTask,
    resolveF_matching, taskSem, jsOrOpt, jsOr_empty, jsOrNat, List.map_map, Function.comp,
    jsNullish, jsTruthyStr, jsStringOfNat, GItem_val_gstr, ite_zero_self, ite_isSome_self,
    ite_jsTruthyNat, ite_jsTruthyNat_or, jsOrUndef_none, jsOrUndef_idem,
    jsOrNatOpt_none_right, jsOrNatOpt_none_left, ite_isSome_map_getD,
    mapIdx, mapIdxGo_map_right, map_mapIdxGo, mapIdxGo_mapIdxGo, mapIdxGo_eq_map, promptOf,
    ite_empty_self]

lemma roundtrip_mcq (t : Task) (eid : Nat) (uuid : List Nat → String)
    (h : t.taskType = "MCQ") :
    taskSem (normalizeFetchedTask uuid (echoPayload (transformTaskForAPI t eid))) = taskSem t := by
  obtain ⟨i, a, tt, ti, d, at_, m1, m2, m3, m4, ams, qs, bl, g1, g2, ans⟩ := t
  simp only at h
  subst h
  simp [transformTaskForAPI, uiToApi_MCQ, echoPayload, normalizeFetchedTask,
    resolveF_mcq, taskSem, jsOrOpt, jsOr_empty, jsOrNat, List.map_map, Function.comp,
    jsNullish, jsTruthyStr, jsStringOfNat, ite_zero_self, ite_isSome_self,
    ite_jsTruthyNat, ite_jsTruthyNat_or, jsOrUndef_none, jsOrUndef_idem,
    jsOrNatOpt_none_right, jsOrNatOpt_none_left, ite_isSome_map_getD,
    mapIdx, mapIdxGo_map_right, map_mapIdxGo, mapIdxGo_mapIdxGo, mapIdxGo_eq_map, promptOf,
    ite_empty_self, mcqEntryOf, mcqSem, optSem]
  intro q hq o ho
  cases o <;> rfl

lemma roundtrip_qa (t : Task) (eid : Nat) (uuid : List Nat → String)
    (h : t.taskType = "QA") :
    taskSem (normalizeFetchedTask uuid (echoPayload (transformTaskForAPI t eid))) = taskSem t := by
  obtain ⟨i, a, tt, ti, d, at_, m1, m2, m3, m4, ams, qs, bl, g1, g2, ans⟩ := t
  simp only at h
  subst h
  simp [transformTaskForAPI, uiToApi_QA, echoPayload, normalizeFetchedTask,
    resolveF_qa, taskSem, jsOrOpt, jsOr_empty, jsOrNat, List.map_map, Function.comp,
    jsNullish, jsTruthyStr, jsStringOfNat, ite_zero_self, ite_isSome_self,
    ite_jsTruthyNat, ite_jsTruthyNat_or, jsOrUndef_none, jsOrUndef_idem,
    jsOrNatOpt_none_right, jsOrNatOpt_none_left, ite_isSome_map_getD,
    mapIdx, mapIdxGo_map_right, map_mapIdxGo, mapIdxGo_mapIdxGo, mapIdxGo_eq_map, promptOf,
    ite_empty_self]

lemma roundtrip_writing (t : Task) (eid : Nat) (uuid : List Nat → String)
    (h : t.taskType = "Writing") :
    taskSem (normalizeFetchedTask uuid (echoPayload (transformTaskForAPI t eid))) = taskSem t := by
  obtain ⟨i, a, tt, ti, d, at_, m1, m2, m3, m4, ams, qs, bl, g1, g2, ans⟩ := t
  simp only at h
  subst h
  simp [transformTaskForAPI, uiToApi_Writing, echoPayload, normalizeFetchedTask,
    resolveF_writing, taskSem, jsOrOpt, jsOr_empty, jsOrNat, List.map_map, Function.comp,
    jsNullish, jsTruthyStr, jsStringOfNat, ite_zero_self, ite_isSome_self,
    ite_jsTruthyNat, ite_jsTruthyNat_or, jsOrUndef_none, jsOrUndef_idem,
    jsOrNatOpt_none_right, jsOrNatOpt_none_left, ite_isSome_map_getD,
    mapIdx, mapIdxGo_map_right, map_mapIdxGo, mapIdxGo_mapIdxGo, mapIdxGo_eq_map, promptOf,
    ite_empty_self]

lemma roundtrip_speaking (t : Task) (eid : Nat) (uuid : List Nat → String)
    (h : t.taskType = "Speaking") :
    taskSem (normalizeFetchedTask uuid (echoPayload (transformTaskForAPI t eid))) = taskSem t := by
  obtain ⟨i, a, tt, ti, d, at_, m1, m2, m3, m4, ams, qs, bl, g1, g2, ans⟩ := t
  simp only at h
  subst h
  simp [transformTaskForAPI, uiToApi_Speaking, echoPayload, normalizeFetchedTask,
    resolveF_speaking, taskSem, jsOrOpt, jsOr_empty, jsOrNat, List.map_map, Function.comp,
    jsNullish, jsTruthyStr, jsStringOfNat, ite_zero_self, ite_isSome_self,
    ite_jsTruthyNat, ite_jsTruthyNat_or, jsOrUndef_none, jsOrUndef_idem,
    jsOrNatOpt_none_right, jsOrNatOpt_none_left, ite_isSome_map_getD,
    mapIdx, mapIdxGo_map_right, map_mapIdxGo, mapIdxGo_mapIdxGo, mapIdxGo_eq_map, promptOf,
    ite_empty_self]

lemma roundtrip_fblanks (t : Task) (eid : Nat) (uuid : List Nat → String)
    (h : t.taskType = "Filling Blanks")
    (hcl : ∀ b ∈ t.blanks.getD [], ∀ s ∈ answersArrayOf b, isCleanAnswer s = true) :
    taskSem (normalizeFetchedTask uuid (echoPayload (transformTaskForAPI t eid))) = taskSem t := by
  obtain ⟨i, a, tt, ti, d, at_, m1, m2, m3, m4, ams, qs, bl, g1, g2, ans⟩ := t
  simp only at h hcl
  subst h
  simp [transformTaskForAPI, uiToApi_FB, echoPayload, normalizeFetchedTask,
    resolveF_fb, taskSem, jsOrOpt, jsOr_empty, List.map_map, Function.comp,
    jsNullish, jsStringOfNat, ite_zero_self, ite_isSome_self,
    ite_jsTruthyNat, ite_jsTruthyNat_or, jsOrUndef_none, jsOrUndef_idem,
    jsOrNatOpt_none_right, jsOrNatOpt_none_left, ite_isSome_map_getD,
    mapIdx, mapIdxGo_map_right, map_mapIdxGo, mapIdxGo_mapIdxGo, mapIdxGo_eq_map,
    ite_empty_self]
  refine ⟨by simp [jsOrNat, ite_zero_self], ?_⟩
  apply mapIdxGo_congr
  intro b hb idx
  have hA := hcl b hb
  have hALeq : (if jsTruthyStr (some (joinCommaSpace (answersArrayOf b))) = true
      then parseAnswers (joinCommaSpace (answersArrayOf b)) else []) = answersArrayOf b := by
    by_cases hj : joinCommaSpace (answersArrayOf b) = ""
    · have hpj := parseAnswers_joinCommaSpace (answersArrayOf b) hA
      rw [hj, parseAnswers_empty] at hpj
      simp [jsTruthyStr, hj, ← hpj, joinCommaSpace_nil, parseAnswers_empty]
    · simp [jsTruthyStr, hj, parseAnswers_joinCommaSpace _ hA]
  simp only [blankSem, blankEntryOf]
  rw [hALeq]
  simp [jsOrOpt, ite_empty_self, jsOrNat_some_succ, answersArrayOf_join_mk]

/-! ## Claim theorems about the task transformer -/

/-- A fixed stand-in for `crypto.randomUUID()` used by concrete witnesses. -/
def constUuid : List Nat → String := fun _ => "generated-uuid"

/-- The spec's Filling Blanks example: one blank with
`correctAnswer = "red, blue"`. -/
def exFillingBlanks : Task :=
  { taskType := "Filling Blanks"
    title := "Colors"
    description := "Fill in"
    allowedTime := 5
    blanks := some [{ questionText := some "The flag is ___", correctAnswer := some "red, blue" }] }

/-- **C1.** For every Task variant (the six UI tags of `src/types.ts`),
transforming UI → API via `transformTaskForAPI` and back via
`normalizeFetchedTask`, with the API echoing the stored payload, round-trips
the semantic content of the task (`taskSem`: type tag, title, description,
allowed time, and the per-variant question/answer structure, blank answers
compared in their parsed list form).  The hypothesis `hcl` restricts blank
answers to clean strings — trimmed, non-empty, comma-free — which is exactly
the normal form the comma-separated form input produces; the spec's
"modulo whitespace trimming" caveat corresponds to this normalization. -/
theorem transform_normalize_roundtrip (t : Task) (eid : Nat) (uuid : List Nat → String)
    (hty : t.taskType ∈ uiTaskTypes)
    (hcl : ∀ b ∈ t.blanks.getD [], ∀ s ∈ answersArrayOf b, isCleanAnswer s = true) :
    taskSem (normalizeFetchedTask uuid (echoPayload (transformTaskForAPI t eid))) = taskSem t := by
  simp only [uiTaskTypes, List.mem_cons, List.not_mem_nil, or_false] at hty
  rcases hty with h | h | h | h | h | h
  · exact roundtrip_matching t eid uuid h
  · exact roundtrip_fblanks t eid uuid h hcl
  · exact roundtrip_mcq t eid uuid h
  · exact roundtrip_qa t eid uuid h
  · exact roundtrip_writing t eid uuid h
  · exact roundtrip_speaking t eid uuid h

/-- **C1 witness.** The spec's example: `correctAnswer = "red, blue"`
serializes to `correct_answer = "red, blue"` (position 1) and deserializes
back to `correctAnswers = ["red", "blue"]`, and the round trip preserves the
semantic content. -/
theorem transform_normalize_roundtrip_witness :
    exFillingBlanks.taskType ∈ uiTaskTypes
    ∧ (∀ b ∈ exFillingBlanks.blanks.getD [], ∀ s ∈ answersArrayOf b, isCleanAnswer s = true)
    ∧ (transformTaskForAPI exFillingBlanks 7).filling_blanks =
        some [{ question_text := "The flag is ___", correct_answer := "red, blue", position := 1 }]
    ∧ ((normalizeFetchedTask constUuid
          (echoPayload (transformTaskForAPI exFillingBlanks 7))).blanks.getD []).map
        Blank.correctAnswers = [some ["red", "blue"]]
    ∧ taskSem (normalizeFetchedTask constUuid (echoPayload (transformTaskForAPI exFillingBlanks 7)))
        = taskSem exFillingBlanks :=
  ⟨by decide, by decide, rfl, rfl,
    transform_normalize_roundtrip exFillingBlanks 7 constUuid (by decide) (by decide)⟩

/-- The common fields of every payload, characterized in one pass over the
branches of `transformTaskForAPI`. -/
lemma transform_base_fields (task : Task) (eid : Nat) :
    (transformTaskForAPI task eid).exercise_id = eid
    ∧ (transformTaskForAPI task eid).type = uiToApiType task.taskType
    ∧ (transformTaskForAPI task eid).title = task.title
    ∧ (transformTaskForAPI task eid).description = jsOr task.description ""
    ∧ (transformTaskForAPI task eid).allowed_time = task.allowedTime
    ∧ (transformTaskForAPI task eid).task_id
        = (if jsTruthyNat task.apiId then task.apiId else none) := by
  simp only [transformTaskForAPI]
  split_ifs <;> exact ⟨rfl, rfl, rfl, rfl, rfl, rfl⟩

/-- A task carrying `apiId = 0`: it has a server id field, but `0` is
JS-falsy, so `if (task.apiId)` skips the `task_id` assignment. -/
def exTaskApiIdZero : Task :=
  { taskType := "Matching", title := "t", allowedTime := 1, apiId := some 0 }

/-- **C2 counterexample.** The claim "the payload contains `task_id` iff the
task carries a pre-existing server id (`apiId`)" fails at `apiId = 0`:
the task carries an `apiId`, yet the payload has no `task_id`. -/
theorem transform_task_id_iff_apiId_false :
    ¬ (((transformTaskForAPI exTaskApiIdZero 1).task_id ≠ none)
        ↔ exTaskApiIdZero.apiId ≠ none) := by
  decide

/-- **C2 (amended).** The payload contains `task_id` iff the task's `apiId`
is present and non-zero (JS-truthy), in which case it equals that id; with
no `apiId` (or a zero one) the payload never contains an id field. -/
theorem transform_task_id_truthy (task : Task) (eid : Nat) :
    (transformTaskForAPI task eid).task_id
      = if jsTruthyNat task.apiId then task.apiId else none :=
  (transform_base_fields task eid).2.2.2.2.2

/-- The spec's Matching example task. -/
def exMatchingParis : Task :=
  { taskType := "Matching"
    title := "Capitals"
    description := "Match each"
    allowedTime := 10
    group1 := some [.gstr "Paris", .gstr "Berlin"]
    group2 := some [.gstr "France", .gstr "Germany"]
    answers := some ["Paris-France", "Berlin-Germany"] }

/-- **C3.** Transforming the Matching task with
`group1 = ["Paris","Berlin"]`, `group2 = ["France","Germany"]`,
`answers = ["Paris-France","Berlin-Germany"]` produces a payload holding
exactly those three arrays next to the common fields, and no question or
option fields (`mcqs`, `question_prompts`, `filling_blanks` all absent) —
stated as a full record equality, so no other field is present. -/
theorem transform_matching_example :
    transformTaskForAPI exMatchingParis 5 =
      { exercise_id := 5
        type := "matching"
        title := "Capitals"
        description := "Match each"
        allowed_time := 10
        task_id := none
        group1 := some ["Paris", "Berlin"]
        group2 := some ["France", "Germany"]
        answers := some ["Paris-France", "Berlin-Germany"]
        mcqs := none
        max_words := none
        min_words := none
        filling_blanks := none
        question_prompts := none } := by
  decide

/-- **C4.** Every payload built by `transformTaskForAPI` carries the common
fields: `exercise_id` is the owning exercise id, `title`, `description` and
`allowed_time` come from the task, and `type` is `uiToApiType` of the tag —
the mapped API tag for the six known task types (spelled out), and the
lowercase of the tag whenever the tag is not in `API_TASK_TYPE_MAP`. -/
theorem transform_common_fields (task : Task) (eid : Nat) :
    (transformTaskForAPI task eid).exercise_id = eid
    ∧ (transformTaskForAPI task eid).type = uiToApiType task.taskType
    ∧ (transformTaskForAPI task eid).title = task.title
    ∧ (transformTaskForAPI task eid).description = task.description
    ∧ (transformTaskForAPI task eid).allowed_time = task.allowedTime
    ∧ uiToApiType "MCQ" = "mcq"
    ∧ uiToApiType "Filling Blanks" = "filling_blanks"
    ∧ uiToApiType "Matching" = "matching"
    ∧ uiToApiType "QA" = "qa"
    ∧ uiToApiType "Writing" = "writing"
    ∧ uiToApiType "Speaking" = "speaking"
    ∧ (API_TASK_TYPE_MAP task.taskType = none →
        (transformTaskForAPI task eid).type = jsToLower task.taskType) := by
  obtain ⟨h1, h2, h3, h4, h5, _⟩ := transform_base_fields task eid
  refine ⟨h1, h2, h3, ?_, h5, rfl, rfl, rfl, rfl, rfl, rfl, ?_⟩
  · rw [h4, jsOr_empty]
  · intro hmap
    rw [h2, uiToApiType, hmap, Option.getD_none]

/-- **C4 witness.** At a legacy tag outside the map (`"Cloze Test"`), the
emitted type is its lowercase, and the common fields are carried verbatim. -/
theorem transform_common_fields_witness :
    API_TASK_TYPE_MAP "Cloze Test" = none
    ∧ (transformTaskForAPI { taskType := "Cloze Test", title := "ct", allowedTime := 9 } 4).type
        = jsToLower "Cloze Test"
    ∧ jsToLower "Cloze Test" = "cloze test"
    ∧ (transformTaskForAPI { taskType := "Cloze Test", title := "ct", allowedTime := 9 } 4).exercise_id
        = 4 := by
  refine ⟨by decide, ?_, by decide, ?_⟩
  · exact (transform_common_fields { taskType := "Cloze Test", title := "ct", allowedTime := 9 }
      4).2.2.2.2.2.2.2.2.2.2.2 (by decide)
  · exact (transform_common_fields { taskType := "Cloze Test", title := "ct", allowedTime := 9 }
      4).1

/-- **C10.** `normalizeFetchedTask` is total over the fetched `type` string:
a type whose lowercase hits one of the six API tags maps to the matching UI
tag; any other non-empty type string is kept verbatim as the task's
`taskType`; a missing or empty type defaults to `"Matching"`. -/
theorem normalize_type_total (uuid : List Nat → String) (t : FetchedTask) :
    (∀ s u, t.type = some s → API_TO_UI_TASK_TYPE (jsToLower s) = some u →
        (normalizeFetchedTask uuid t).taskType = u)
    ∧ (∀ s, t.type = some s → s ≠ "" → API_TO_UI_TASK_TYPE (jsToLower s) = none →
        (normalizeFetchedTask uuid t).taskType = s)
    ∧ ((t.type = none ∨ t.type = some "") →
        (normalizeFetchedTask uuid t).taskType = "Matching") := by
  have htt : (normalizeFetchedTask uuid t).taskType = resolveFetchedType t.type := by
    simp only [normalizeFetchedTask]
    split_ifs <;> rfl
  refine ⟨?_, ?_, ?_⟩
  · intro s u hs hu
    rw [htt, hs]
    by_cases hse : s = ""
    · subst hse
      rw [show jsToLower "" = "" from rfl,
        show API_TO_UI_TASK_TYPE "" = none from rfl] at hu
      exact Option.noConfusion hu
    · simp [resolveFetchedType, jsOrOpt, hse, hu]
  · intro s hs hse hu
    rw [htt, hs]
    simp [resolveFetchedType, jsOrOpt, hse, hu]
  · intro hcase
    rcases hcase with h | h <;> rw [htt, h] <;> rfl

/-- **C10 witness.** A case-insensitively known tag (`"MCQ"` lowercases to
`"mcq"`), an unknown tag kept verbatim, and the empty / missing defaults. -/
theorem normalize_type_total_witness :
    API_TO_UI_TASK_TYPE (jsToLower "MCQ") = some "MCQ"
    ∧ (normalizeFetchedTask constUuid { type := some "MCQ", title := "a" }).taskType = "MCQ"
    ∧ API_TO_UI_TASK_TYPE (jsToLower "essay_v2") = none
    ∧ (normalizeFetchedTask constUuid { type := some "essay_v2", title := "b" }).taskType
        = "essay_v2"
    ∧ (normalizeFetchedTask constUuid { type := none, title := "c" }).taskType = "Matching"
    ∧ (normalizeFetchedTask constUuid { type := some "", title := "d" }).taskType = "Matching" :=
  ⟨by decide,
    (normalize_type_total constUuid { type := some "MCQ", title := "a" }).1 "MCQ" "MCQ" rfl
      (by decide),
    by decide,
    (normalize_type_total constUuid { type := some "essay_v2", title := "b" }).2.1 "essay_v2" rfl
      (by decide) (by decide),
    (normalize_type_total constUuid { type := none, title := "c" }).2.2 (Or.inl rfl),
    (normalize_type_total constUuid { type := some "", title := "d" }).2.2 (Or.inr rfl)⟩

/-! ## The API client (src/utils/apiService.ts) -/

/-- A JSON value (the parsed response body). -/
inductive JVal : Type where
  | jnull
  | jbool (b : Bool)
  | jnum (n : Int)
  | jstr (s : String)
  | jarr (elems : List JVal)
  | jobj (fields : List (String × JVal))

/-- JS truthiness of a JSON value (`null`, `false`, `0`, `""` are falsy;
arrays and objects are always truthy). -/
def jsTruthy : JVal → Bool
  | .jnull => false
  | .jbool b => b
  | .jnum n => n ≠ 0
  | .jstr s => s ≠ ""
  | .jarr _ => true
  | .jobj _ => true

/-- Property access `data?.k`: a field of an object, `undefined` otherwise. -/
def jField : Option JVal → String → Option JVal
  | some (.jobj fs), k => (fs.find? (fun p => p.1 == k)).map (fun p => p.2)
  | _, _ => none

/-- `data?.k` when it is truthy (the guard `if (data?.k)`). -/
def jTruthyField (data : Option JVal) (k : String) : Option JVal :=
  match jField data k with
  | some v => if jsTruthy v then some v else none
  | none => none

/-- JS `String(x)` (array elements joined with `","`, objects printed as
`[object Object]`). -/
def jsString : JVal → String
  | .jnull => "null"
  | .jbool b => cond b "true" "false"
  | .jnum n => toString n
  | .jstr s => s
  | .jarr l => String.intercalate ","
      (l.attach.map fun p =>
        match p.1 with
        | JVal.jnull => ""
        | _ => jsString p.1)
  | .jobj _ => "[object Object]"
decreasing_by
  simp_wf
  have := List.sizeOf_lt_of_mem p.2
  omega

/-- One element of `Array.prototype.join`: `null` renders empty, anything
else via `String(...)`. -/
def jsJoinElem (v : JVal) : String :=
  match v with
  | JVal.jnull => ""
  | _ => jsString v

/-- The escaping of one character inside `JSON.stringify` of a string. -/
def jsonEscapeChar (c : Char) : String :=
  if c = '"' then "\\\""
  else if c = '\\' then "\\\\"
  else if c = '\n' then "\\n"
  else if c = '\r' then "\\r"
  else if c = '\t' then "\\t"
  else String.mk [c]

/-- `JSON.stringify` of a string. -/
def jsonQuote (s : String) : String :=
  "\"" ++ String.join (s.data.map jsonEscapeChar) ++ "\""

/-- `JSON.stringify`. -/
def jsonStringify : JVal → String
  | .jnull => "null"
  | .jbool b => cond b "true" "false"
  | .jnum n => toString n
  | .jstr s => jsonQuote s
  | .jarr l => "[" ++ String.intercalate "," (l.attach.map fun p => jsonStringify p.1) ++ "]"
  | .jobj fs => "\x7b" ++ String.intercalate ","
      (fs.attach.map fun p => jsonQuote p.1.1 ++ ":" ++ jsonStringify p.1.2) ++ "\x7d"
decreasing_by
  · simp_wf
    have := List.sizeOf_lt_of_mem p.2
    omega
  · simp_wf
    rcases p with ⟨⟨k, v⟩, hp⟩
    have := List.sizeOf_lt_of_mem hp
    simp at this ⊢
    omega

/-- `typeof x === 'object' ? JSON.stringify(x) : String(x)` — the rendering
used for the `error` / `detail` fields. -/
def stringifyTop (v : JVal) : String :=
  match v with
  | .jobj _ => jsonStringify v
  | .jarr _ => jsonStringify v
  | _ => jsString v

/-- The rendering of a truthy `message` field: arrays join with newlines,
objects stringify, the rest via `String(...)`. -/
def messageText (m : JVal) : String :=
  match m with
  | .jarr l => String.intercalate "\n" (l.map jsJoinElem)
  | .jobj fs => jsonStringify (.jobj fs)
  | _ => jsString m

/-- Browser local storage as read by the client (`authToken` and `user`). -/
structure Storage : Type where
  authToken : Option String := none
  user : Option String := none
deriving DecidableEq, Repr

/-- `removeToken()`: removes both `authToken` and `user`. -/
def removeToken (_ : Storage) : Storage :=
  { authToken := none, user := none }

/-- An HTTP response as consumed by `handleResponse`.  `data` is the outcome
of the body read (`await response.json()` / `.text()`, a `jstr` for text
bodies): `none` models the `data = null` fallback of a failed read. -/
structure HttpResponse : Type where
  status : Nat
  statusText : String := ""
  data : Option JVal := none

/-- `Response.ok`: status in the 2xx range. -/
def HttpResponse.isOk (r : HttpResponse) : Bool :=
  200 ≤ r.status && r.status ≤ 299

/-- The typed error thrown on a non-2xx response: human-readable message,
HTTP status, raw payload. -/
structure ApiError : Type where
  message : String
  status : Nat
  data : Option JVal

/-- The outcome of `handleResponse`: the storage afterwards, how many times
`removeToken()` ran, and the returned data or thrown error. -/
structure HandleResult : Type where
  storage : Storage
  removals : Nat
  result : Except ApiError (Option JVal)

/-- `handleResponse(response)` from `src/utils/apiService.ts`, with the
storage passed explicitly. -/
def handleResponse (resp : HttpResponse) (st : Storage) : HandleResult :=
  let data := resp.data
  if resp.isOk then { storage := st, removals := 0, result := .ok data }
  else
    let st1 := if resp.status = 401 then removeToken st else st
    let removals := if resp.status = 401 then 1 else 0
    let errorMessage := jsOr resp.statusText ("HTTP " ++ toString resp.status)
    let errorMessage :=
      match jTruthyField data "message" with
      | some m => messageText m
      | none =>
        match jTruthyField data "error" with
        | some e => stringifyTop e
        | none =>
          match jTruthyField data "detail" with
          | some dv => stringifyTop dv
          | none => errorMessage
    { storage := st1
      removals := removals
      result := .error { message := errorMessage, status := resp.status, data := data } }

/-- The outcome of one `apiFetch` call: how many network requests were made
(always exactly one — there is no retry logic), and the handler outcome. -/
structure FetchOutcome : Type where
  fetchCalls : Nat
  storage : Storage
  removals : Nat
  result : Except ApiError (Option JVal)

/-- `apiFetch`: performs exactly one `fetch` (`resp` is its response) and
hands the response to `handleResponse`. -/
def apiFetch (resp : HttpResponse) (st : Storage) : FetchOutcome :=
  let h := handleResponse resp st
  { fetchCalls := 1, storage := h.storage, removals := h.removals, result := h.result }

/-- **C5.** On any 401 response the client clears the stored auth state —
both `authToken` and `user` — exactly once (`removals = 1`), then throws,
and the enclosing `apiFetch` made exactly one request (no retry). -/
theorem handleResponse_401_clears_once (resp : HttpResponse) (st : Storage)
    (h : resp.status = 401) :
    (handleResponse resp st).storage = { authToken := none, user := none }
    ∧ (handleResponse resp st).removals = 1
    ∧ (∃ e, (handleResponse resp st).result = .error e)
    ∧ (apiFetch resp st).fetchCalls = 1 := by
  have hok : resp.isOk = false := by
    simp [HttpResponse.isOk, h]
  simp only [handleResponse, hok, Bool.false_eq_true, if_false, h,
    eq_self_iff_true, if_true, removeToken]
  exact ⟨trivial, trivial, ⟨_, rfl⟩, rfl⟩

/-- **C5 witness.** A concrete 401 with a live session: storage is wiped,
one removal, the handler throws, one fetch. -/
theorem handleResponse_401_clears_once_witness :
    ({ status := 401, statusText := "Unauthorized",
       data := some (.jobj [("message", .jstr "Token expired")]) } : HttpResponse).status = 401
    ∧ ((handleResponse
          { status := 401, statusText := "Unauthorized",
            data := some (.jobj [("message", .jstr "Token expired")]) }
          { authToken := some "tok", user := some "me" }).storage
        = { authToken := none, user := none }
      ∧ (handleResponse
          { status := 401, statusText := "Unauthorized",
            data := some (.jobj [("message", .jstr "Token expired")]) }
          { authToken := some "tok", user := some "me" }).removals = 1
      ∧ (∃ e, (handleResponse
          { status := 401, statusText := "Unauthorized",
            data := some (.jobj [("message", .jstr "Token expired")]) }
          { authToken := some "tok", user := some "me" }).result = .error e)
      ∧ (apiFetch
          { status := 401, statusText := "Unauthorized",
            data := some (.jobj [("message", .jstr "Token expired")]) }
          { authToken := some "tok", user := some "me" }).fetchCalls = 1) :=
  ⟨rfl, handleResponse_401_clears_once _ _ rfl⟩

/-- **C6.** On every non-2xx response the handler throws an error carrying
the HTTP status and the raw payload, and its message is the most specific
text available, in precedence order `message` (arrays joined with newlines),
then `error`, then `detail` (objects stringified), falling back to the
response `statusText`, or `"HTTP <status>"` when that is empty too. -/
theorem handleResponse_error_contract (resp : HttpResponse) (st : Storage)
    (h : resp.isOk = false) :
    ∃ e, (handleResponse resp st).result = .error e
    ∧ e.status = resp.status
    ∧ e.data = resp.data
    ∧ (∀ v, jTruthyField resp.data "message" = some v → e.message = messageText v)
    ∧ (jTruthyField resp.data "message" = none →
        ∀ v, jTruthyField resp.data "error" = some v → e.message = stringifyTop v)
    ∧ (jTruthyField resp.data "message" = none →
        jTruthyField resp.data "error" = none →
        ∀ v, jTruthyField resp.data "detail" = some v → e.message = stringifyTop v)
    ∧ (jTruthyField resp.data "message" = none →
        jTruthyField resp.data "error" = none →
        jTruthyField resp.data "detail" = none →
        e.message = jsOr resp.statusText ("HTTP " ++ toString resp.status)) := by
  simp only [handleResponse, h, Bool.false_eq_true, if_false]
  refine ⟨_, rfl, rfl, rfl, ?_, ?_, ?_, ?_⟩
  · intro v hv
    simp only [hv]
  · intro hm v hv
    simp only [hm, hv]
  · intro hm he v hv
    simp only [hm, he, hv]
  · intro hm he hd
    simp only [hm, he, hd]

/-- **C6 witness.** A 422 whose `message` is an array of strings: the thrown
error joins them with newlines and carries status and payload; a second
response with only statusText falls back to it. -/
theorem handleResponse_error_contract_witness :
    ({ status := 422, statusText := "Unprocessable",
        data := some (.jobj [("message", .jarr [.jstr "too short", .jstr "bad email"])]) }
      : HttpResponse).isOk = false
    ∧ (∃ e, (handleResponse
        { status := 422, statusText := "Unprocessable",
          data := some (.jobj [("message", .jarr [.jstr "too short", .jstr "bad email"])]) }
        { authToken := none, user := none }).result = .error e
      ∧ e.status = 422
      ∧ e.data = some (.jobj [("message", .jarr [.jstr "too short", .jstr "bad email"])])
      ∧ e.message = "too short\nbad email")
    ∧ (handleResponse { status := 500, statusText := "", data := none }
        { authToken := none, user := none }).result
        = .error { message := "HTTP 500", status := 500, data := none } := by
  refine ⟨by decide, ?_, rfl⟩
  obtain ⟨e, he, hst, hdata, hmsg, -, -, -⟩ :=
    handleResponse_error_contract
      { status := 422, statusText := "Unprocessable",
        data := some (.jobj [("message", .jarr [.jstr "too short", .jstr "bad email"])]) }
      { authToken := none, user := none } (by decide)
  refine ⟨e, he, hst, hdata, ?_⟩
  rw [hmsg _ rfl]
  simp only [messageText, jsJoinElem, List.map_cons, List.map_nil, jsString]
  decide


/-! ## The auth hook (src/hooks/useAuth.tsx) -/

/-- The `user` object inside a login response. -/
structure FetchedUser : Type where
  id : String := ""
  firstName : String := ""
  lastName : String := ""
  email : String := ""
  role : Option String := none
  isActive : Bool := false
deriving DecidableEq, Repr

/-- `result.data` of the login response. -/
structure LoginData : Type where
  token : Option String := none
  user : Option FetchedUser := none
deriving DecidableEq, Repr

/-- The parsed `/auth/login` response. -/
structure LoginResult : Type where
  code : Option Int := none
  status : Option String := none
  message : Option String := none
  data : Option LoginData := none
deriving DecidableEq, Repr

/-- The user object kept in the React context. -/
structure CtxUser : Type where
  id : String
  name : String
  email : String
  role : String
  isActive : Bool
deriving DecidableEq, Repr

/-- The auth state: persisted storage plus the in-memory `currentUser`. -/
structure AuthState : Type where
  storage : Storage := {}
  currentUser : Option CtxUser := none
deriving DecidableEq, Repr

/-- `normalizeRole` from `useAuth.tsx`: falsy roles and unknown strings
default to `"User"`; known roles are matched case-insensitively. -/
def normalizeRole (role : Option String) : String :=
  match role with
  | none => "User"
  | some r =>
    if r = "" then "User"
    else
      match jsToLower r with
      | "superadmin" => "SuperAdmin"
      | "admin" => "Admin"
      | "editor" => "Editor"
      | "user" => "User"
      | _ => "User"

/-- `login` from `useAuth.tsx`, applied to the parsed response `result` and
the current auth state.  Order follows the source: check `code`/`status`,
check the token (`if (!token)` — absent or empty), check the user object,
then `setToken` and `setCurrentUser`; every check precedes both writes.
(The outer `catch` rethrows the same non-empty message; it adds nothing.) -/
def login (result : LoginResult) (st : AuthState) : AuthState × Except String Bool :=
  if result.code ≠ some 200 ∨ result.status ≠ some "success" then
    (st, .error (jsOrOpt result.message "Login failed. Please check your credentials."))
  else
    match result.data.bind LoginData.token with
    | none => (st, .error "Login successful, but no auth token was provided.")
    | some tk =>
      if tk = "" then (st, .error "Login successful, but no auth token was provided.")
      else
        match result.data.bind LoginData.user with
        | none => (st, .error "Login successful, but no user object was provided.")
        | some u =>
          let st1 : AuthState := { st with storage := { st.storage with authToken := some tk } }
          let userForContext : CtxUser :=
            { id := u.id
              name := u.firstName ++ " " ++ u.lastName
              email := u.email
              role := normalizeRole u.role
              isActive := u.isActive }
          ({ st1 with currentUser := some userForContext }, .ok true)

/-- `Except.isOk` spelled out for the login result. -/
def exceptIsOk {ε α : Type} : Except ε α → Bool
  | .ok _ => true
  | .error _ => false

/-- **C7.** `login` succeeds only when the response carries both a (truthy)
token and a user object; when either is missing the attempt fails with an
error and the auth state — stored token, stored user, current user — is
left exactly as it was, so no partial authentication state exists. -/
theorem login_atomic (result : LoginResult) (st : AuthState) :
    (exceptIsOk (login result st).2 = true →
      ∃ tk u, result.data.bind LoginData.token = some tk ∧ tk ≠ ""
        ∧ result.data.bind LoginData.user = some u)
    ∧ ((result.data.bind LoginData.token = none ∨ result.data.bind LoginData.user = none) →
        exceptIsOk (login result st).2 = false ∧ (login result st).1 = st) := by
  by_cases h1 : result.code ≠ some 200 ∨ result.status ≠ some "success"
  · simp [login, h1, exceptIsOk]
  · rcases htk : result.data.bind LoginData.token with _ | tk
    · simp [login, h1, htk, exceptIsOk]
    · by_cases htke : tk = ""
      · simp [login, h1, htk, htke, exceptIsOk]
      · rcases hu : result.data.bind LoginData.user with _ | u
        · simp [login, h1, htk, htke, hu, exceptIsOk]
        · simp [login, h1, htk, htke, hu, exceptIsOk]

/-- The successful login response used by the witness. -/
def exAda : FetchedUser :=
  { id := "7", firstName := "Ada", lastName := "Lovelace", email := "ada@x.io",
    role := some "ADMIN", isActive := true }

def exLoginOk : LoginResult :=
  { code := some 200
    status := some "success"
    data := some { token := some "jwt-token", user := some exAda } }

/-- A login response missing the user object. -/
def exLoginNoUser : LoginResult :=
  { code := some 200, status := some "success",
    data := some { token := some "jwt-token" } }

/-- **C7 witness.** A response without a user object fails and leaves the
state untouched; the full success case sets token and user together. -/
theorem login_atomic_witness :
    (exLoginNoUser.data.bind LoginData.token = none ∨
      exLoginNoUser.data.bind LoginData.user = none)
    ∧ (exceptIsOk (login exLoginNoUser {}).2 = false ∧ (login exLoginNoUser {}).1 = {})
    ∧ (login exLoginOk {}).1.storage = { authToken := some "jwt-token", user := none }
    ∧ (login exLoginOk {}).1.currentUser =
        some { id := "7", name := "Ada Lovelace", email := "ada@x.io", role := "Admin", isActive := true }
    ∧ (login exLoginOk {}).2 = .ok true :=
  ⟨Or.inr rfl, (login_atomic exLoginNoUser {}).2 (Or.inr rfl), by decide, by decide, rfl⟩


/-! ## JSON validation in the email-config form
(src/components/email/EmailConfigForm.tsx)

`JSON.parse` is embedded as a fuelled recursive-descent parser over the
ECMA-404 grammar (whitespace, `null` / `true` / `false`, strings with the
JSON escapes, numbers, arrays, objects).  Only parse success matters to the
form — the numeric value keeps its integer part and `\uXXXX` escapes decode
to the corresponding scalar where one exists. -/

/-- JSON whitespace: space, tab, line feed, carriage return. -/
def isJsonWs (c : Char) : Bool :=
  c = ' ' || c = Char.ofNat 9 || c = Char.ofNat 10 || c = Char.ofNat 13

/-- Skip JSON whitespace. -/
def skipWs (cs : List Char) : List Char := cs.dropWhile isJsonWs

/-- One hex digit. -/
def parseHexDigit (c : Char) : Option Nat :=
  if '0' ≤ c ∧ c ≤ '9' then some (c.toNat - 48)
  else if 'a' ≤ c ∧ c ≤ 'f' then some (c.toNat - 87)
  else if 'A' ≤ c ∧ c ≤ 'F' then some (c.toNat - 55)
  else none

/-- A JSON string escape after the backslash. -/
def parseEscape : List Char → Option (Char × List Char)
  | '"' :: r => some ('"', r)
  | '\\' :: r => some ('\\', r)
  | '/' :: r => some ('/', r)
  | 'b' :: r => some (Char.ofNat 8, r)
  | 'f' :: r => some (Char.ofNat 12, r)
  | 'n' :: r => some (Char.ofNat 10, r)
  | 'r' :: r => some (Char.ofNat 13, r)
  | 't' :: r => some (Char.ofNat 9, r)
  | 'u' :: a :: b :: c :: d :: r =>
    match parseHexDigit a, parseHexDigit b, parseHexDigit c, parseHexDigit d with
    | some ha, some hb, some hc, some hd =>
      some (Char.ofNat (((ha * 16 + hb) * 16 + hc) * 16 + hd), r)
    | _, _, _, _ => none
  | _ => none

/-- The body of a JSON string after the opening quote; raw control
characters are rejected, escapes are decoded. -/
def parseJString : Nat → List Char → Option (String × List Char)
  | 0, _ => none
  | _, [] => none
  | fuel + 1, c :: r =>
    if c = '"' then some ("", r)
    else if c = '\\' then
      match parseEscape r with
      | some (ch, r2) =>
        match parseJString fuel r2 with
        | some (s, r3) => some (String.mk (ch :: s.data), r3)
        | none => none
      | none => none
    else if c.toNat < 32 then none
    else
      match parseJString fuel r with
      | some (s, r2) => some (String.mk (c :: s.data), r2)
      | none => none

/-- The numeric value of a digit run. -/
def digitsToNat (ds : List Char) : Nat :=
  ds.foldl (fun acc c => acc * 10 + (c.toNat - 48)) 0

/-- One or more decimal digits. -/
def parseDigits (cs : List Char) : Option (Nat × List Char) :=
  let ds := cs.takeWhile Char.isDigit
  if ds.isEmpty then none else some (digitsToNat ds, cs.drop ds.length)

/-- The JSON integer part: `0`, or a non-zero digit followed by digits
(no leading zeros). -/
def parseIntPart (cs : List Char) : Option (Nat × List Char) :=
  match cs with
  | '0' :: r => some (0, r)
  | c :: _ => if c.isDigit then parseDigits cs else none
  | [] => none

/-- The optional fraction part `.digits`. -/
def parseFracPart (cs : List Char) : Option (List Char) :=
  match cs with
  | '.' :: r =>
    match parseDigits r with
    | some (_, r2) => some r2
    | none => none
  | _ => some cs

/-- The optional exponent part `[eE][+-]?digits`. -/
def parseExpPart (cs : List Char) : Option (List Char) :=
  match cs with
  | c :: r =>
    if c = 'e' ∨ c = 'E' then
      let r2 := match r with
        | s :: r3 => if s = '+' ∨ s = '-' then r3 else r
        | [] => r
      match parseDigits r2 with
      | some (_, r3) => some r3
      | none => none
    else some cs
  | [] => some cs

/-- A JSON number `-? int frac? exp?` (value kept as the signed integer
part; magnitude is irrelevant to validation). -/
def parseNumber (cs : List Char) : Option (JVal × List Char) :=
  let (neg, cs1) := match cs with
    | '-' :: r => (true, r)
    | _ => (false, cs)
  match parseIntPart cs1 with
  | none => none
  | some (n, r1) =>
    match parseFracPart r1 with
    | none => none
    | some r2 =>
      match parseExpPart r2 with
      | none => none
      | some r3 => some (.jnum (if neg then -(n : Int) else (n : Int)), r3)

/-- `'\x7b'` and `'\x7d'` as characters. -/
def lbraceChar : Char := Char.ofNat 123

def rbraceChar : Char := Char.ofNat 125

mutual

/-- A JSON value (fuelled; fuel bounds the recursion depth). -/
def parseVal : Nat → List Char → Option (JVal × List Char)
  | 0, _ => none
  | fuel + 1, cs =>
    match skipWs cs with
    | [] => none
    | 'n' :: 'u' :: 'l' :: 'l' :: r => some (.jnull, r)
    | 't' :: 'r' :: 'u' :: 'e' :: r => some (.jbool true, r)
    | 'f' :: 'a' :: 'l' :: 's' :: 'e' :: r => some (.jbool false, r)
    | '"' :: r =>
      match parseJString (r.length + 1) r with
      | some (str, r2) => some (.jstr str, r2)
      | none => none
    | '[' :: r =>
      match skipWs r with
      | ']' :: r2 => some (.jarr [], r2)
      | _ =>
        match parseArrItems fuel r with
        | some (vs, r2) => some (.jarr vs, r2)
        | none => none
    | c :: r =>
      if c = lbraceChar then
        match skipWs r with
        | c2 :: r2 =>
          if c2 = rbraceChar then some (.jobj [], r2)
          else
            match parseObjItems fuel r with
            | some (fs, r3) => some (.jobj fs, r3)
            | none => none
        | [] => none
      else parseNumber (skipWs cs)

/-- Array elements `value (, value)* ]` (at least one). -/
def parseArrItems : Nat → List Char → Option (List JVal × List Char)
  | 0, _ => none
  | fuel + 1, cs =>
    match parseVal fuel cs with
    | none => none
    | some (v, r) =>
      match skipWs r with
      | ',' :: r2 =>
        match parseArrItems fuel r2 with
        | some (vs, r3) => some (v :: vs, r3)
        | none => none
      | ']' :: r2 => some ([v], r2)
      | _ => none

/-- Object members `"key" : value (, member)* \x7d` (at least one). -/
def parseObjItems : Nat → List Char → Option (List (String × JVal) × List Char)
  | 0, _ => none
  | fuel + 1, cs =>
    match skipWs cs with
    | '"' :: r =>
      match parseJString (r.length + 1) r with
      | none => none
      | some (k, r2) =>
        match skipWs r2 with
        | ':' :: r3 =>
          match parseVal fuel r3 with
          | none => none
          | some (v, r4) =>
            match skipWs r4 with
            | ',' :: r5 =>
              match parseObjItems fuel r5 with
              | some (fs, r6) => some ((k, v) :: fs, r6)
              | none => none
            | c :: r5 => if c = rbraceChar then some ([(k, v)], r5) else none
            | [] => none
        | _ => none
    | _ => none

end

/-- `JSON.parse(s)`: parse one value and require only trailing whitespace.
`none` is a parse error (the `catch` branch); in particular the empty
string is invalid. -/
def jsonParse (s : String) : Option JVal :=
  match parseVal (4 * (s.data.length + 1)) s.data with
  | some (v, rest) => if skipWs rest = [] then some v else none
  | none => none

/-- The email-config form state submitted by `handleSubmit`. -/
structure EmailConfigFormData : Type where
  provider : String := "mailtrap"
  from_email : String := ""
  from_name : String := ""
  provider_config : String := ""
deriving DecidableEq, Repr

/-- What `EmailConfigForm.handleSubmit` does after `e.preventDefault()`:
`JSON.parse(formData.provider_config)` inside a try/catch — on failure it
alerts `"Invalid JSON format in provider_config"` and returns without
calling `onSubmit`; on success it calls `onSubmit(formData)`. -/
inductive SubmitOutcome : Type where
  | alertInvalidJson
  | submitted (payload : EmailConfigFormData)
deriving DecidableEq, Repr

/-- `handleSubmit` of `EmailConfigForm`. -/
def handleSubmit (formData : EmailConfigFormData) : SubmitOutcome :=
  match jsonParse formData.provider_config with
  | none => .alertInvalidJson
  | some _ => .submitted formData

/-- **C8.** For every form state whose `provider_config` fails to parse as
JSON, `handleSubmit` refuses the submission: it alerts and `onSubmit` is
never invoked — no payload is ever submitted. -/
theorem emailconfig_rejects_invalid_json (formData : EmailConfigFormData)
    (h : jsonParse formData.provider_config = none) :
    handleSubmit formData = .alertInvalidJson
    ∧ ∀ p, handleSubmit formData ≠ .submitted p := by
  simp [handleSubmit, h]

/-- **C8 witness.** The empty string and a malformed string are rejected
with the alert and never submitted; a well-formed config is submitted
(the parser is not vacuously rejecting). -/
theorem emailconfig_rejects_invalid_json_witness :
    jsonParse "" = none
    ∧ handleSubmit { provider_config := "" } = .alertInvalidJson
    ∧ (∀ p, handleSubmit { provider_config := "" } ≠ .submitted p)
    ∧ jsonParse "\x7bhost: smtp" = none
    ∧ handleSubmit { provider_config := "\x7bhost: smtp" } = .alertInvalidJson
    ∧ (jsonParse "\x7b \"host\": \"smtp.x.io\", \"port\": 2525, \"ok\": true \x7d").isSome = true
    ∧ handleSubmit { provider_config := "\x7b\"a\":[1,null]\x7d" }
        = .submitted { provider_config := "\x7b\"a\":[1,null]\x7d" } :=
  ⟨rfl,
    (emailconfig_rejects_invalid_json { provider_config := "" } rfl).1,
    (emailconfig_rejects_invalid_json { provider_config := "" } rfl).2,
    rfl,
    (emailconfig_rejects_invalid_json { provider_config := "\x7bhost: smtp" } rfl).1,
    rfl, rfl⟩


/-! ## The Inquiries page loader (src/pages/Inquiries.tsx) -/

/-- A raw inquiry record as it arrives in `response.data.inquiries`. -/
structure RawInquiry : Type where
  id : Nat := 0
  name : Option String := none
  email : Option String := none
  subject : Option String := none
  message : Option String := none
  created_at : Option String := none
  status : Option String := none
deriving DecidableEq, Repr

/-- The formatted inquiry kept in page state.  The page's own interface
declares `status: 'new' | 'read' | 'replied'`, but at runtime the cast
`(i.status || 'new') as ...` passes any truthy string through. -/
structure Inquiry : Type where
  id : Nat
  name : String
  email : String
  subject : String
  message : String
  created_at : String
  status : String
deriving DecidableEq, Repr

/-- The per-record formatting inside `loadInquiries` (`nowIso` stands for
`new Date().toISOString()`). -/
def formatInquiry (nowIso : String) (i : RawInquiry) : Inquiry :=
  { id := i.id
    name := jsOrOpt i.name "Anonymous"
    email := jsOrOpt i.email "no-email@provided.com"
    subject := jsOrOpt i.subject "(No subject)"
    message := jsOrOpt i.message "(No message)"
    created_at := jsOrOpt i.created_at nowIso
    status := jsOrOpt i.status "new" }

/-- `loadInquiries`: `response?.data?.inquiries` when it is an array
(`none` models a missing or non-array field, which yields the empty page),
formatted record by record. -/
def loadInquiries (nowIso : String) (inquiriesArray : Option (List RawInquiry)) : List Inquiry :=
  match inquiriesArray with
  | none => []
  | some l => l.map (formatInquiry nowIso)

/-- **C9 counterexample.** The claim "every inquiry record produced by the
Inquiries page loader has status `submitted` or `resolved`" is false: a
fetched record with no status field is given status `"new"` — the page's
statuses are `new`/`read`/`replied`, not `submitted`/`resolved`. -/
theorem inquiries_status_not_submitted_resolved :
    ¬ (∀ i ∈ loadInquiries "2026-10-11T00:00:00.000Z" (some [{ id := 1 }]),
        i.status = "submitted" ∨ i.status = "resolved") := by
  decide

/-- **C9 (amended).** Every inquiry record produced by the loader has the
fetched status when that is a non-empty string, and `"new"` otherwise —
the loader validates nothing beyond the `'new'` default. -/
theorem inquiries_status_passthrough (nowIso : String) (l : List RawInquiry) :
    (loadInquiries nowIso (some l)).map Inquiry.status
      = l.map (fun r => jsOrOpt r.status "new") := by
  simp [loadInquiries, List.map_map, Function.comp, formatInquiry]

end AdminPanel
